import Mathlib

/-!
Verification of the optopus order/position lifecycle core.

Shallow embedding of `optopus/data_objects.py`, `optopus/ib_adapter.py` and
`optopus/optopus.py`.  Python floats are modelled as `Option ℚ` where `none`
plays the role of NaN (any comparison with NaN is false, arithmetic with NaN
yields NaN); Python `None` is likewise modelled by `Option`; exceptions are
modelled by `Except String`.
-/

namespace Optopus

/-- A Python float: `none` is NaN. -/
abbrev Flt := Option ℚ

/-- The NaN float (`optopus.utils.nan`). -/
def nanF : Flt := none

/-- `optopus.utils.is_nan`. -/
def is_nan (x : Flt) : Bool := x.isNone

/-- Python `+` on floats: NaN propagates. -/
def fadd : Flt → Flt → Flt
  | some a, some b => some (a + b)
  | _, _ => none

/-- Python `/ 2` on floats: NaN propagates. -/
def fhalf : Flt → Flt
  | some a => some (a / 2)
  | none => none

/-- Python `<=` on floats: any comparison involving NaN is false. -/
def fle : Flt → Flt → Bool
  | some a, some b => decide (a ≤ b)
  | _, _ => false

/-- `data_objects.DataSource`. -/
inductive DataSource
  | IB
  | Quandl
deriving Repr, DecidableEq

/-- `data_objects.AssetType`. -/
inductive AssetType
  | Stock
  | Option
  | Future
  | Forex
  | Index
  | CFD
  | Bond
  | Commodity
  | FuturesOption
  | MutualFund
  | Warrant
deriving Repr, DecidableEq

/-- `data_objects.StrategyType`. -/
inductive StrategyType
  | SellNakedPut
deriving Repr, DecidableEq

/-- `data_objects.OrderType`. -/
inductive OrderType
  | Market
  | Limit
  | Stop
deriving Repr, DecidableEq

/-- `data_objects.RightType` (called `OptionRight` by `ib_adapter`). -/
inductive RightType
  | Call
  | Put
deriving Repr, DecidableEq

/-- The broker string for a right (`RightType(...).value`). -/
def RightType.value : RightType → String
  | .Call => "C"
  | .Put => "P"

/-- `data_objects.OptionMoneyness`. -/
inductive OptionMoneyness
  | AtTheMoney
  | InTheMoney
  | OutTheMoney
  | NA
deriving Repr, DecidableEq

/-- `data_objects.OwnershipType`. -/
inductive OwnershipType
  | Buyer
  | Seller
deriving Repr, DecidableEq

/-- The broker string for an ownership side (`OwnershipType(...).value`). -/
def OwnershipType.value : OwnershipType → String
  | .Buyer => "BUY"
  | .Seller => "SELL"

/-- `data_objects.OrderRol`. -/
inductive OrderRol
  | NewLeg
  | TakeProfit
  | StopLoss
deriving Repr, DecidableEq

/-- `data_objects.OrderStatus`. -/
inductive OrderStatus
  | APIPending
  | PendingSubmit
  | PendingCancel
  | PreSubmitted
  | Submitted
  | APICancelled
  | Cancelled
  | Filled
  | Inactive
deriving Repr, DecidableEq

/-- The order action used by `ib_adapter` (`OrderAction`, imported there from
`data_objects`; the buy/sell side of a broker order). -/
inductive OrderAction
  | Buy
  | Sell
deriving Repr, DecidableEq

/-- Currency, modelled from the spec: `optopus.currency`/`optopus.settings`
are not under src.  The concrete value of the global constant is irrelevant
to every claim. -/
inductive Currency
  | USD
  | EUR
deriving Repr, DecidableEq

/-- Modelled from the spec: `optopus.settings.CURRENCY`, the single global
currency configuration constant (§6 watch-list/configuration). -/
def CURRENCY : Currency := Currency.USD

/-- `data_objects.AssetData`: a market snapshot.  Fields that `__init__`
always sets to `None` are kept with value `none`. -/
structure AssetData where
  code : String
  asset_type : AssetType
  high : Flt
  low : Flt
  close : Flt
  bid : Flt
  bid_size : Flt
  ask : Flt
  ask_size : Flt
  last : Flt
  last_size : Flt
  time : Option ℤ
  volume : Flt
  IV_h : Flt
  IV_rank_h : Flt
  IV_percentile_h : Flt
  volume_h : Flt
  stdev : Flt
  beta : Flt
  one_month_return : Flt
  correlation : Flt
  midpoint : Flt
  market_price : Flt
deriving Repr, DecidableEq

/-- `(bid + ask) / 2`, as computed for `AssetData.midpoint`
(data_objects.py line 180). -/
def midpoint_of (bid ask : Flt) : Flt := fhalf (fadd bid ask)

/-- The `market_price` computation of `AssetData.__init__`
(data_objects.py lines 186-193), step for step:
start from NaN; if the midpoint is NaN or `bid <= last <= ask`, take `last`;
if still NaN, take the midpoint; if NaN or exactly `-1`, take `close`. -/
def derive_market_price (close bid ask last : Flt) : Flt :=
  let midpoint := midpoint_of bid ask
  let mp1 : Flt := bif is_nan midpoint || (fle bid last && fle last ask) then last else nanF
  let mp2 : Flt := bif is_nan mp1 then midpoint else mp1
  bif is_nan mp2 || mp2 == some (-1) then close else mp2

/-- `AssetData.__init__` (data_objects.py lines 145-193). -/
def AssetData.make (code : String) (asset_type : AssetType)
    (high low close bid bid_size ask ask_size last last_size volume : Flt)
    (time : Option ℤ) : AssetData :=
  { code := code
    asset_type := asset_type
    high := high
    low := low
    close := close
    bid := bid
    bid_size := bid_size
    ask := ask
    ask_size := ask_size
    last := last
    last_size := last_size
    time := time
    volume := volume
    IV_h := none
    IV_rank_h := none
    IV_percentile_h := none
    volume_h := none
    stdev := none
    beta := none
    one_month_return := none
    correlation := none
    midpoint := midpoint_of bid ask
    market_price := derive_market_price close bid ask last }

/-- C1 is false on the code: with bid = −1, ask = 3, last = −1, close = 10 the
snapshot has a valid midpoint of 1 (neither NaN nor −1), yet the derived market
price is the close, 10.  The claim requires a last price of −1 to fall through
to the midpoint step (which would give 1); in the code it is selected at step 1
and then replaced by the close, skipping the midpoint entirely. -/
theorem C1_counterexample :
    (AssetData.make "SPY" AssetType.Stock nanF nanF (some 10) (some (-1)) nanF
        (some 3) nanF (some (-1)) nanF nanF none).market_price = some 10 ∧
    (AssetData.make "SPY" AssetType.Stock nanF nanF (some 10) (some (-1)) nanF
        (some 3) nanF (some (-1)) nanF nanF none).midpoint = some 1 ∧
    ((some 10 : Flt) ≠ some 1) := by
  refine ⟨by decide, ?_, by decide⟩
  show midpoint_of (some (-1)) (some 3) = some 1
  simp [midpoint_of, fhalf, fadd]
  norm_num

/-- C1 amended: `market_price` is the last price when the midpoint is NaN or
`bid ≤ last ≤ ask` holds and the last price is neither NaN nor −1; a last price
of −1 selected at step 1 falls through directly to the close, skipping the
midpoint step; otherwise the midpoint is used unless it is −1, in which case the
close is used; and when both last and midpoint are unavailable the close is
used. -/
theorem C1_market_price_amended (code : String) (aty : AssetType)
    (high low close bid bsz ask asz last lsz vol : Flt) (t : Option ℤ) :
    (((is_nan (midpoint_of bid ask) || (fle bid last && fle last ask)) = true →
        last ≠ nanF → last ≠ some (-1) →
        (AssetData.make code aty high low close bid bsz ask asz last lsz vol t).market_price
          = last)
    ∧ ((is_nan (midpoint_of bid ask) || (fle bid last && fle last ask)) = true →
        last = some (-1) →
        (AssetData.make code aty high low close bid bsz ask asz last lsz vol t).market_price
          = close)
    ∧ ((is_nan (midpoint_of bid ask) || (fle bid last && fle last ask)) = false →
        midpoint_of bid ask ≠ some (-1) →
        (AssetData.make code aty high low close bid bsz ask asz last lsz vol t).market_price
          = midpoint_of bid ask)
    ∧ ((is_nan (midpoint_of bid ask) || (fle bid last && fle last ask)) = false →
        midpoint_of bid ask = some (-1) →
        (AssetData.make code aty high low close bid bsz ask asz last lsz vol t).market_price
          = close)
    ∧ (last = nanF → midpoint_of bid ask = nanF →
        (AssetData.make code aty high low close bid bsz ask asz last lsz vol t).market_price
          = close)) := by
  refine ⟨?_, ?_, ?_, ?_, ?_⟩
  · intro h h2 h3
    obtain ⟨x, rfl⟩ := Option.ne_none_iff_exists'.mp h2
    have hb : ((some x : Flt) == some (-1)) = false := beq_eq_false_iff_ne.mpr h3
    simp only [is_nan] at h
    show derive_market_price close bid ask (some x) = some x
    simp [derive_market_price, h, is_nan, nanF, hb]
  · intro h h2
    subst h2
    simp only [is_nan] at h
    show derive_market_price close bid ask (some (-1)) = close
    simp [derive_market_price, h, is_nan, nanF]
  · intro h h3
    have hmid : midpoint_of bid ask ≠ none := by
      intro hn
      rw [show is_nan (midpoint_of bid ask) = true by simp [is_nan, hn]] at h
      simp at h
    obtain ⟨m, hm⟩ := Option.ne_none_iff_exists'.mp hmid
    rw [hm] at h h3
    have hb : ((some m : Flt) == some (-1)) = false := beq_eq_false_iff_ne.mpr h3
    have hfl : (fle bid last && fle last ask) = false := by simpa [is_nan] using h
    show derive_market_price close bid ask last = midpoint_of bid ask
    simp [derive_market_price, hm, hfl, is_nan, nanF, hb]
  · intro h hm
    rw [hm] at h
    have hfl : (fle bid last && fle last ask) = false := by simpa [is_nan] using h
    show derive_market_price close bid ask last = close
    simp [derive_market_price, hm, hfl, is_nan, nanF]
  · intro h2 hm
    show derive_market_price close bid ask last = close
    simp [derive_market_price, h2, hm, is_nan, nanF]

/-- Witness for the amended C1 theorem: bid 1, ask 3, last 2, close 7 gives
market price 2 (the last price, lying within the spread). -/
theorem C1_market_price_amended_witness :
    (AssetData.make "SPY" AssetType.Stock nanF nanF (some 7) (some 1) nanF
        (some 3) nanF (some 2) nanF nanF none).market_price = some 2 :=
  (C1_market_price_amended "SPY" AssetType.Stock nanF nanF (some 7) (some 1) nanF
      (some 3) nanF (some 2) nanF nanF none).1 (by decide) (by decide) (by decide)

/-- `IBDataAdapter._calculate_moneyness` (ib_adapter.py lines 529-556).
`right` is the raw broker string; both intrinsic and extrinsic start at 0, the
`'C'` and `'P'` branches overwrite them, and extrinsic is option price minus
intrinsic.  For a right other than `"C"`/`"P"` the Python function reaches the
return with `moneyness` unbound and raises `UnboundLocalError`, modelled as
`none`. -/
def calculate_moneyness (strike option_price underlying_price : ℚ)
    (right : String) : Option (OptionMoneyness × ℚ × ℚ) :=
  if right = "C" then
    let intrinsic_value := max 0 (underlying_price - strike)
    let moneyness :=
      if underlying_price > strike then OptionMoneyness.InTheMoney
      else if underlying_price < strike then OptionMoneyness.OutTheMoney
      else OptionMoneyness.InTheMoney
    some (moneyness, intrinsic_value, option_price - intrinsic_value)
  else if right = "P" then
    let intrinsic_value := max 0 (strike - underlying_price)
    let moneyness :=
      if underlying_price < strike then OptionMoneyness.InTheMoney
      else if underlying_price > strike then OptionMoneyness.OutTheMoney
      else OptionMoneyness.InTheMoney
    some (moneyness, intrinsic_value, option_price - intrinsic_value)
  else none

/-- C3: for any strike K, underlying price U and option price P, a call has
intrinsic value max(0, U − K) and is in-the-money iff U ≥ K; a put has
intrinsic value max(0, K − U) and is in-the-money iff U ≤ K; extrinsic value
is P minus intrinsic, not clamped at zero. -/
theorem C3_moneyness (K U P : ℚ) :
    calculate_moneyness K P U "C"
      = some ((if K ≤ U then OptionMoneyness.InTheMoney else OptionMoneyness.OutTheMoney),
          max 0 (U - K), P - max 0 (U - K)) ∧
    calculate_moneyness K P U "P"
      = some ((if U ≤ K then OptionMoneyness.InTheMoney else OptionMoneyness.OutTheMoney),
          max 0 (K - U), P - max 0 (K - U)) := by
  constructor
  · rcases lt_trichotomy U K with h | h | h
    · simp [calculate_moneyness, h, not_lt_of_gt h, not_le.mpr h]
    · subst h
      simp [calculate_moneyness]
    · simp [calculate_moneyness, h, not_lt_of_gt h, le_of_lt h]
  · rcases lt_trichotomy U K with h | h | h
    · simp [calculate_moneyness, h, not_lt_of_gt h, le_of_lt h]
    · subst h
      simp [calculate_moneyness]
    · simp [calculate_moneyness, h, not_lt_of_gt h, not_le.mpr h]

/-- The fields of the broker order consumed by `_place_SNP`: it reads
`order.action`, `order.quantity`, `order.price` and `order.reference` from
the `OrderData` interface `ib_adapter` imports. -/
structure SNPOrder where
  action : OrderAction
  quantity : ℕ
  price : ℚ
  reference : String
deriving Repr, DecidableEq

/-- `ib_insync.order.LimitOrder` as built by `_place_SNP`. -/
structure LimitOrder where
  action : String
  totalQuantity : ℕ
  lmtPrice : ℚ
  orderRef : String
  orderId : ℕ
  transmit : Bool
  parentId : Option ℕ
deriving Repr, DecidableEq

/-- `ib_insync.order.StopOrder` as built by `_place_SNP`. -/
structure StopOrder where
  action : String
  totalQuantity : ℕ
  stopPrice : ℚ
  orderRef : String
  orderId : ℕ
  transmit : Bool
  parentId : Option ℕ
deriving Repr, DecidableEq

/-- `IBBrokerAdapter._place_SNP` (ib_adapter.py lines 72-114): the bracket
order group (parent entry, take-profit, stop-loss).  The take-profit limit is
`order.price / 2` and the stop trigger `order.price * 2`, both hardcoded.
`reqId` models the broker client's `getReqId` counter, which hands out
consecutive ids. -/
def place_SNP (order : SNPOrder) (reqId : ℕ) :
    LimitOrder × LimitOrder × StopOrder :=
  let action := if order.action = OrderAction.Buy then "BUY" else "SELL"
  let reverse_action := if action = "SELL" then "BUY" else "SELL"
  let take_profit_price := order.price / 2
  let stop_loss_price := order.price * 2
  let parent : LimitOrder :=
    { action := action, totalQuantity := order.quantity, lmtPrice := order.price,
      orderRef := order.reference, orderId := reqId, transmit := false,
      parentId := none }
  let take_profit : LimitOrder :=
    { action := reverse_action, totalQuantity := order.quantity,
      lmtPrice := take_profit_price, orderRef := order.reference,
      orderId := reqId + 1, transmit := false, parentId := some parent.orderId }
  let stop_loss : StopOrder :=
    { action := reverse_action, totalQuantity := order.quantity,
      stopPrice := stop_loss_price, orderRef := order.reference,
      orderId := reqId + 2, transmit := true, parentId := some parent.orderId }
  (parent, take_profit, stop_loss)

/-- A calendar date (`datetime.date`). -/
structure Date where
  year : ℕ
  month : ℕ
  day : ℕ
deriving Repr, DecidableEq

/-- `data_objects.Leg` (data_objects.py lines 372-405): the contract
specification and risk-management factors of one strategy component.  The
`contract` object, the derived `leg_id` text and the bookkeeping timestamps
are immaterial to the claims and omitted; `order_price` and `quantity`
start as `None`. -/
structure Leg where
  code : String
  ownership : OwnershipType
  right : RightType
  expiration : Date
  strike : ℚ
  multiplier : ℕ
  strategy_price : ℚ
  ratio : ℕ
  order_price : Option ℚ
  quantity : Option ℕ
  currency : Currency
  take_profit_factor : ℚ
  stop_loss_factor : ℚ
deriving Repr, DecidableEq

/-- A sell-naked-option leg whose configured take-profit factor is 0.9 and
stop-loss factor 3, with entry price 2. -/
def leg0 : Leg :=
  { code := "SPY", ownership := OwnershipType.Seller, right := RightType.Put,
    expiration := { year := 2018, month := 11, day := 16 }, strike := 100,
    multiplier := 100, strategy_price := 2, ratio := 1, order_price := none,
    quantity := some 1, currency := Currency.USD,
    take_profit_factor := 9/10, stop_loss_factor := 3 }

/-- The entry order of `leg0` (price 2, quantity 1). -/
def leg0_entry : SNPOrder :=
  { action := OrderAction.Sell, quantity := 1, price := leg0.strategy_price,
    reference := "OPTOPUS-SPY_SNP_1_2-NL" }

/-- C2 is false on the code: `_place_SNP` hardcodes the protective prices as
entry/2 and entry×2, ignoring the leg's configured factors.  For a leg with
take-profit factor 0.9 and stop-loss factor 3 and entry price 2, the claim
requires a take-profit price of 1.8 and a stop trigger of 6, but the bracket
built from the entry order carries 1 and 4. -/
theorem C2_counterexample :
    (place_SNP leg0_entry 1).2.1.lmtPrice = 1 ∧
    (place_SNP leg0_entry 1).2.2.stopPrice = 4 ∧
    leg0.strategy_price * leg0.take_profit_factor = 9/5 ∧
    leg0.strategy_price * leg0.stop_loss_factor = 6 ∧
    (1 : ℚ) ≠ 9/5 ∧ (4 : ℚ) ≠ 6 := by
  refine ⟨?_, ?_, ?_, ?_, by norm_num, by norm_num⟩
  · show leg0_entry.price / 2 = 1
    norm_num [leg0_entry, leg0]
  · show leg0_entry.price * 2 = 4
    norm_num [leg0_entry, leg0]
  · show leg0.strategy_price * leg0.take_profit_factor = 9/5
    norm_num [leg0]
  · show leg0.strategy_price * leg0.stop_loss_factor = 6
    norm_num [leg0]

/-- C2 amended: the bracket group places the take-profit on the reverse side
with limit price entry price / 2 and the stop-loss on the reverse side with
stop trigger entry price × 2 — fixed factors ½ and 2, independent of the
leg's configured take-profit/stop-loss factors — and all three orders carry
the entry order's quantity and reference, the protective orders being
children of the entry order. -/
theorem C2_bracket_amended (order : SNPOrder) (reqId : ℕ) :
    ((place_SNP order reqId).1.lmtPrice = order.price
    ∧ (place_SNP order reqId).1.totalQuantity = order.quantity
    ∧ (place_SNP order reqId).2.1.lmtPrice = order.price / 2
    ∧ (place_SNP order reqId).2.1.totalQuantity = order.quantity
    ∧ (place_SNP order reqId).2.2.stopPrice = order.price * 2
    ∧ (place_SNP order reqId).2.2.totalQuantity = order.quantity
    ∧ (place_SNP order reqId).2.1.parentId = some (place_SNP order reqId).1.orderId
    ∧ (place_SNP order reqId).2.2.parentId = some (place_SNP order reqId).1.orderId
    ∧ (order.action = OrderAction.Buy →
        (place_SNP order reqId).1.action = "BUY"
        ∧ (place_SNP order reqId).2.1.action = "SELL"
        ∧ (place_SNP order reqId).2.2.action = "SELL")
    ∧ (order.action = OrderAction.Sell →
        (place_SNP order reqId).1.action = "SELL"
        ∧ (place_SNP order reqId).2.1.action = "BUY"
        ∧ (place_SNP order reqId).2.2.action = "BUY")) := by
  cases h : order.action <;>
    simp [place_SNP, h]

/-- Witness for the amended C2 theorem: a sell entry at price 2, quantity 1
yields a buy take-profit at 1 and a buy stop-loss triggered at 4. -/
theorem C2_bracket_amended_witness :
    (place_SNP leg0_entry 1).1.action = "SELL"
    ∧ (place_SNP leg0_entry 1).2.1.action = "BUY"
    ∧ (place_SNP leg0_entry 1).2.2.action = "BUY" :=
  (C2_bracket_amended leg0_entry 1).2.2.2.2.2.2.2.2.2 rfl

/-- `data_objects.BarData`: one historical bar. -/
structure BarData where
  code : String
  bar_time : Flt
  bar_open : Flt
  bar_high : Flt
  bar_low : Flt
  bar_close : Flt
  bar_average : Flt
  bar_volume : Flt
  bar_count : Flt
deriving Repr, DecidableEq

/-- An `ib_insync` contract as the adapters handle it: `Index(code, currency)`
or `Stock(code, 'SMART', currency)` before qualification, and a qualified
contract with its symbol afterwards. -/
structure Contract where
  symbol : String
  secType : String
  exchange : String
  currency : String
deriving Repr, DecidableEq

/-- The broker string of a currency (`Currency(...).value`). -/
def Currency.value : Currency → String
  | .USD => "USD"
  | .EUR => "EUR"

/-- `ib_insync.contract.Index(code, currency=...)`. -/
def mkIndex (code : String) (currency : String) : Contract :=
  { symbol := code, secType := "IND", exchange := "", currency := currency }

/-- `ib_insync.contract.Stock(code, exchange=..., currency=...)`. -/
def mkStock (code : String) (exchange : String) (currency : String) : Contract :=
  { symbol := code, secType := "STK", exchange := exchange, currency := currency }

/-- `data_objects.Asset` (data_objects.py lines 75-141).  Timestamps are in
seconds, `Option` models Python `None`.  `_historical_data_updated` is the
attribute created only by the two historical setters (it does not exist after
`__init__`; the absent attribute is modelled as `none`).  The option chain is
never populated by any code a claim touches, so its element type is
immaterial. -/
structure Asset where
  code : String
  asset_type : AssetType
  data_source : DataSource
  currency : Currency
  _data : Option AssetData
  _contract : Option Contract
  _historical_data : Option (List BarData)
  _historical_IV_data : Option (List BarData)
  _historical_updated : Option ℤ
  _historical_IV_updated : Option ℤ
  _option_chain : Option Unit
  _historical_data_updated : Option ℤ
deriving Repr, DecidableEq

/-- `Asset.__init__` (data_objects.py lines 76-91).  Note line 84:
`self.currency = CURRENCY` — the constructor's `currency` argument is not
used. -/
def Asset.make (code : String) (asset_type : AssetType)
    (data_source : DataSource) (currency : Currency) : Asset :=
  { code := code, asset_type := asset_type, data_source := data_source,
    currency := CURRENCY, _data := none, _contract := none,
    _historical_data := none, _historical_IV_data := none,
    _historical_updated := none, _historical_IV_updated := none,
    _option_chain := none, _historical_data_updated := none }

/-- The `Asset.current` setter (data_objects.py lines 97-99): an
unconditional assignment of the new snapshot. -/
def Asset.set_current (a : Asset) (values : AssetData) : Asset :=
  { a with _data := some values }

/-- The `Asset.historical` setter (data_objects.py lines 105-108): stores the
series and records the update time into `_historical_data_updated`. -/
def Asset.set_historical (a : Asset) (values : List BarData) (now : ℤ) : Asset :=
  { a with _historical_data := some values, _historical_data_updated := some now }

/-- The `Asset.historical_IV` setter (data_objects.py lines 114-117): stores
the IV series and records the update time — also into
`_historical_data_updated` (not `_historical_IV_updated`). -/
def Asset.set_historical_IV (a : Asset) (values : List BarData) (now : ℤ) : Asset :=
  { a with _historical_IV_data := some values, _historical_data_updated := some now }

/-- `Asset.historical_is_updated` (data_objects.py lines 123-131): reads
`_historical_updated`; `delta.days` (floor-divided day count) is truthy iff
nonzero. -/
def Asset.historical_is_updated (a : Asset) (now : ℤ) : Bool :=
  match a._historical_updated with
  | some t => bif ((now - t).fdiv 86400) == 0 then false else true
  | none => false

/-- `Asset.historical_IV_is_updated` (data_objects.py lines 133-141): reads
`_historical_IV_updated`. -/
def Asset.historical_IV_is_updated (a : Asset) (now : ℤ) : Bool :=
  match a._historical_IV_updated with
  | some t => bif ((now - t).fdiv 86400) == 0 then false else true
  | none => false

/-- A snapshot timestamped 5 (all quote fields unavailable, close 10). -/
def snapA : AssetData :=
  AssetData.make "SPY" AssetType.Stock nanF nanF (some 10) nanF nanF nanF nanF
    nanF nanF nanF (some 5)

/-- A snapshot timestamped 3 (all quote fields unavailable, close 20). -/
def snapB : AssetData :=
  AssetData.make "SPY" AssetType.Stock nanF nanF (some 20) nanF nanF nanF nanF
    nanF nanF nanF (some 3)

/-- C7 is false on the code: the `current` setter keeps no timestamp
monotonicity.  An asset holding the snapshot timestamped 5, when assigned the
older snapshot timestamped 3, ends up holding the older snapshot instead of
rejecting it. -/
theorem C7_counterexample :
    (((Asset.make "SPY" AssetType.Stock DataSource.IB Currency.USD).set_current
        snapA).set_current snapB)._data = some snapB
    ∧ snapA.time = some 5 ∧ snapB.time = some 3 ∧ (3 : ℤ) < 5
    ∧ some snapB ≠ some snapA := by
  refine ⟨rfl, rfl, rfl, by decide, ?_⟩
  intro h
  have : snapB.time = snapA.time := by rw [Option.some_inj.mp h]
  simp [snapA, snapB, AssetData.make] at this

/-- C7 amended: snapshot replacement is unconditional — whatever snapshot is
assigned through the `current` setter becomes the held snapshot, with no
comparison of timestamps (older snapshots replace newer ones too). -/
theorem C7_replacement_amended (a : Asset) (values : AssetData) :
    (a.set_current values)._data = some values := rfl

/-- One application of a public historical setter. -/
inductive HistAssign
  | hist (values : List BarData) (now : ℤ)
  | histIV (values : List BarData) (now : ℤ)

/-- Apply one historical-setter assignment to an asset. -/
def applyHistAssign (a : Asset) : HistAssign → Asset
  | .hist v now => a.set_historical v now
  | .histIV v now => a.set_historical_IV v now

/-- Both setters leave the checker-side stamps `_historical_updated` and
`_historical_IV_updated` untouched. -/
theorem histAssign_stamps (ops : List HistAssign) (a : Asset)
    (h : a._historical_updated = none ∧ a._historical_IV_updated = none) :
    (ops.foldl applyHistAssign a)._historical_updated = none
    ∧ (ops.foldl applyHistAssign a)._historical_IV_updated = none := by
  induction ops generalizing a with
  | nil => exact h
  | cons op rest ih =>
    cases op <;>
      exact ih _ ⟨h.1, h.2⟩

/-- C9: after any sequence of assignments through the public `historical` and
`historical_IV` setters, both updatedness checkers still return `false`: the
setters record the update time in `_historical_data_updated`, while the
checkers read `_historical_updated` and `_historical_IV_updated`, which stay
`None`. -/
theorem C9_historical_updated (code : String) (aty : AssetType)
    (ds : DataSource) (cur : Currency) (ops : List HistAssign) (now : ℤ) :
    ((ops.foldl applyHistAssign (Asset.make code aty ds cur)).historical_is_updated now
        = false
    ∧ (ops.foldl applyHistAssign (Asset.make code aty ds cur)).historical_IV_is_updated now
        = false
    ∧ (ops.foldl applyHistAssign (Asset.make code aty ds cur))._historical_updated = none
    ∧ (ops.foldl applyHistAssign (Asset.make code aty ds cur))._historical_IV_updated
        = none) := by
  obtain ⟨h1, h2⟩ := histAssign_stamps ops (Asset.make code aty ds cur) ⟨rfl, rfl⟩
  refine ⟨?_, ?_, h1, h2⟩
  · rw [Asset.historical_is_updated, h1]
  · rw [Asset.historical_IV_is_updated, h2]

/-- C10: the `Asset` constructor sets the currency field to the global
`CURRENCY` constant; the `currency` argument is ignored (two constructions
differing only in that argument are equal). -/
theorem C10_currency (code : String) (aty : AssetType) (ds : DataSource)
    (cur cur' : Currency) :
    (Asset.make code aty ds cur).currency = CURRENCY
    ∧ Asset.make code aty ds cur = Asset.make code aty ds cur' := ⟨rfl, rfl⟩

/-- The contract fields of a broker event read by the translator
(`ib_insync` contract).  Empty strings are Python falsy values. -/
structure IBContract where
  symbol : String
  secType : String
  lastTradeDateOrContractMonth : String
  right : String
  strike : ℚ
deriving Repr, DecidableEq

/-- A broker position event (`ib_insync.objects.Position`). -/
structure IBPosition where
  contract : IBContract
  position : ℤ
  avgCost : ℚ
deriving Repr, DecidableEq

/-- The order part of a broker trade event (`ib_insync.order.Order`). -/
structure IBOrder where
  action : String
  orderRef : String
  volatility : Flt
deriving Repr, DecidableEq

/-- The status part of a broker trade event (`ib_insync.order.OrderStatus`). -/
structure IBOrderStatus where
  status : String
  avgFillPrice : ℚ
  filled : ℚ
deriving Repr, DecidableEq

/-- A broker trade event (`ib_insync.order.Trade`). -/
structure IBTrade where
  contract : IBContract
  order : IBOrder
  orderStatus : IBOrderStatus
deriving Repr, DecidableEq

/-- `IBTranslator._account_translation` (ib_adapter.py lines 176-188). -/
def account_translation : List (String × String) :=
  [("AccountCode", "id"), ("AvailableFunds", "funds"),
   ("BuyingPower", "buying_power"), ("TotalCashValue", "cash"),
   ("DayTradesRemaining", "max_day_trades"),
   ("NetLiquidation", "net_liquidation"), ("InitMarginReq", "initial_margin"),
   ("MaintMarginReq", "maintenance_margin"),
   ("ExcessLiquidity", "excess_liquidity"), ("Cushion", "cushion"),
   ("GrossPositionValue", "gross_position_value"),
   ("EquityWithLoanValue", "equity_with_loan"), ("SMA", "SMA")]

/-- `IBTranslator._sectype_translation` (ib_adapter.py lines 189-199).  Note
the source maps `'CASH'` to `AssetType.Future`. -/
def sectype_translation : List (String × AssetType) :=
  [("STK", .Stock), ("OPT", .Option), ("FUT", .Future), ("CASH", .Future),
   ("IND", .Index), ("CFD", .CFD), ("BOND", .Bond), ("CMDTY", .Commodity),
   ("FOP", .FuturesOption), ("FUND", .MutualFund), ("IOPT", .Warrant)]

/-- `IBTranslator._right_translation` (ib_adapter.py lines 201-202). -/
def right_translation : List (String × RightType) :=
  [("C", .Call), ("P", .Put)]

/-- `IBTranslator._order_status_translation` (ib_adapter.py lines 204-210). -/
def order_status_translation : List (String × OrderStatus) :=
  [("PendingSubmit", .PendingSubmit), ("PendingCancel", .PendingCancel),
   ("PreSubmitted", .PreSubmitted), ("Submitted", .Submitted),
   ("Cancelled", .Cancelled), ("Filled", .Filled), ("Inactive", .Inactive)]

/-- `IBTranslator._ownership_translation` (ib_adapter.py lines 212-213). -/
def ownership_translation : List (String × OwnershipType) :=
  [("BUY", .Buyer), ("SELL", .Seller)]

/-- `IBTranslator._strategy_translation` (ib_adapter.py line 215). -/
def strategy_translation : List (String × StrategyType) :=
  [("SNP", .SellNakedPut)]

/-- Python `d[k]` on a dict: the value, or `KeyError` when the key is
absent. -/
def dict_get {α : Type} (l : List (String × α)) (k : String)
    (errMsg : String) : Except String α :=
  match l.lookup k with
  | some v => .ok v
  | none => .error errMsg

/-- `IBTranslator._translate_account_tag` (ib_adapter.py lines 235-239):
a guarded membership test, so unknown tags yield `None` rather than raising. -/
def translate_account_tag (ib_tag : String) : Option String :=
  account_translation.lookup ib_tag

/-- Modelled from the spec: `optopus.utils.parse_ib_date` is not under src/;
broker date strings are `YYYYMMDD` and parse into a calendar date. -/
def parse_ib_date (s : String) : Date :=
  { year := ((s.take 4).toNat?).getD 0,
    month := (((s.drop 4).take 2).toNat?).getD 0,
    day := (((s.drop 6).take 2).toNat?).getD 0 }

/-- Two-digit rendering of a date component. -/
def pad2 (n : ℕ) : String :=
  bif n < 10 then "0" ++ toString n else toString n

/-- `expiration.strftime('%d-%m-%Y')`. -/
def Date.strftime_dmY (d : Date) : String :=
  pad2 d.day ++ "-" ++ pad2 d.month ++ "-" ++ toString d.year

/-- `str(round(strike, 1))`: the strike rounded to tenths, rendered as the
integer count of tenths (the exact text format is immaterial to every claim;
only the dereference order of the id concatenation matters). -/
def fmt_strike (strike : ℚ) : String :=
  toString (round (strike * 10) : ℤ)

/-- `data_objects.PositionData` (data_objects.py lines 281-312). -/
structure PositionData where
  code : String
  asset_type : AssetType
  ownership : OwnershipType
  expiration : Date
  strike : ℚ
  right : RightType
  quantity : ℤ
  position_id : String
  average_cost : ℚ
  option_price : Option ℚ
  trade_price : Option ℚ
  trade_time : Option ℤ
  underlying_price : Option ℚ
  beta : Option ℚ
  delta : Option ℚ
  algorithm : Option String
  strategy : Option String
  rol : Option String
  DTE : Option ℤ
deriving Repr, DecidableEq

/-- `PositionData.__init__` (data_objects.py lines 282-312).  Building
`position_id` dereferences `self.ownership.value`, `self.right.value` and
`self.expiration.strftime(...)` left to right; a `None` in any of them makes
the constructor raise `AttributeError`, modelled as an error result. -/
def PositionData.make (code : String) (asset_type : AssetType)
    (ownership : Option OwnershipType) (quantity : ℤ)
    (expiration : Option Date) (strike : ℚ) (right : Option RightType)
    (average_cost : ℚ) : Except String PositionData :=
  match ownership with
  | none => .error "AttributeError: ownership is None"
  | some ow =>
    match right with
    | none => .error "AttributeError: right is None"
    | some r =>
      match expiration with
      | none => .error "AttributeError: expiration is None"
      | some e =>
        .ok { code := code, asset_type := asset_type, ownership := ow,
              expiration := e, strike := strike, right := r,
              quantity := quantity,
              position_id := code ++ " " ++ ow.value ++ " " ++ r.value ++ " "
                ++ fmt_strike strike ++ " " ++ e.strftime_dmY,
              average_cost := average_cost, option_price := none,
              trade_price := none, trade_time := none,
              underlying_price := none, beta := none, delta := none,
              algorithm := none, strategy := none, rol := none, DTE := none }

/-- `IBTranslator.translate_position` (ib_adapter.py lines 251-282):
raw dict indexing for the instrument type, ownership from the sign of the
reported quantity (`None` on zero), quantity as the absolute value, optional
expiration/right, and construction of the `PositionData`. -/
def translate_position (item : IBPosition) : Except String PositionData := do
  let code := item.contract.symbol
  let asset_type ← dict_get sectype_translation item.contract.secType
    "KeyError: secType"
  let ownership : Option OwnershipType :=
    if item.position > 0 then some .Buyer
    else if item.position < 0 then some .Seller
    else none
  let expiration : Option Date :=
    if item.contract.lastTradeDateOrContractMonth ≠ "" then
      some (parse_ib_date item.contract.lastTradeDateOrContractMonth)
    else none
  let right : Option RightType ←
    if item.contract.right ≠ "" then
      (dict_get right_translation item.contract.right "KeyError: right").map some
    else pure none
  PositionData.make code asset_type ownership (abs item.position) expiration
    item.contract.strike right item.avgCost

/-- An option position event on SPY (put, strike 100, expiry 2018-11-16) with
reported quantity `q`. -/
def posEvent (q : ℤ) : IBPosition :=
  { contract :=
      { symbol := "SPY"
        secType := "OPT"
        lastTradeDateOrContractMonth := "20181116"
        right := "P"
        strike := 100 }
    position := q
    avgCost := 250 }

/-- C4: sign-derived ownership works for nonzero quantities (positive gives a
long/Buyer position, negative a short/Seller one, with the absolute
quantity), but a reported quantity of zero makes the translator construct a
`PositionData` with `ownership = None`, whose id concatenation dereferences
the null ownership: the translation raises instead of yielding a no-position
result. -/
theorem C4_zero_quantity :
    (translate_position (posEvent 2)).map (fun p => (p.ownership, p.quantity))
      = .ok (OwnershipType.Buyer, 2)
    ∧ (translate_position (posEvent (-3))).map (fun p => (p.ownership, p.quantity))
      = .ok (OwnershipType.Seller, 3)
    ∧ translate_position (posEvent 0)
      = .error "AttributeError: ownership is None" := ⟨rfl, rfl, rfl⟩

/-- Python truthiness of a float: 0.0 is falsy, every other float (NaN
included) truthy. -/
def ftruthy : Flt → Bool
  | some q => decide (q ≠ 0)
  | none => true

/-- The trade record as constructed by `IBTranslator.translate_trade`
(ib_adapter.py lines 320-335).  The `TradeData` declared in
`data_objects.py` exposes a narrower record (order id, status, remaining,
commission); the translator is modelled against the field set it actually
builds. -/
structure TradeData where
  code : String
  asset_type : AssetType
  expiration : Option Date
  ownership : OwnershipType
  quantity : ℚ
  strike : ℚ
  right : Option RightType
  algorithm : String
  strategy_id : String
  strategy_type : StrategyType
  rol : String
  implied_volatility : Flt
  order_status : OrderStatus
  time : ℤ
  price : ℚ
  data_source_id : IBContract
deriving Repr, DecidableEq

/-- `IBTranslator.translate_trade` (ib_adapter.py lines 284-336): raw dict
indexing for instrument type, order action and order status; the order
reference, when nonempty, must split on `-` into exactly three parts and its
middle part on `_` into exactly four (otherwise `ValueError`), and its
strategy-type code is again a raw dict lookup; when the reference is empty
the parsed locals stay unbound and the final record construction raises
`UnboundLocalError`. -/
def translate_trade (item : IBTrade) (now : ℤ) : Except String TradeData := do
  let code := item.contract.symbol
  let asset_type ← dict_get sectype_translation item.contract.secType
    "KeyError: secType"
  let ownership ← dict_get ownership_translation item.order.action
    "KeyError: action"
  let expiration : Option Date :=
    if item.contract.lastTradeDateOrContractMonth ≠ "" then
      some (parse_ib_date item.contract.lastTradeDateOrContractMonth)
    else none
  let right : Option RightType ←
    if item.contract.right ≠ "" then
      (dict_get right_translation item.contract.right "KeyError: right").map some
    else pure none
  let refParts : Option (String × String × String × StrategyType) ←
    if item.order.orderRef ≠ "" then
      match item.order.orderRef.splitOn "-" with
      | [algorithm, strategy_id, rol] =>
        match strategy_id.splitOn "_" with
        | [_, strategy_type, _, _] =>
          (dict_get strategy_translation strategy_type
            "KeyError: strategy").map (fun st => some (algorithm, strategy_id, rol, st))
        | _ => .error "ValueError: strategy id unpack"
      | _ => .error "ValueError: orderRef unpack"
    else pure none
  let volatility : Flt :=
    bif ftruthy item.order.volatility then item.order.volatility else nanF
  let order_status ← dict_get order_status_translation item.orderStatus.status
    "KeyError: status"
  match refParts with
  | some (algorithm, strategy_id, rol, strategy_type) =>
    pure { code := code, asset_type := asset_type, expiration := expiration,
           ownership := ownership, quantity := item.orderStatus.filled,
           strike := item.contract.strike, right := right,
           algorithm := algorithm, strategy_id := strategy_id,
           strategy_type := strategy_type, rol := rol,
           implied_volatility := volatility, order_status := order_status,
           time := now, price := item.orderStatus.avgFillPrice,
           data_source_id := item.contract }
  | none => .error "UnboundLocalError: algorithm"

/-- A failed step aborts an exception-modelled computation. -/
theorem error_bind {α β : Type} (e : String) (f : α → Except String β) :
    (Except.error e >>= f) = Except.error e := rfl

/-- A successful step feeds its value onward. -/
theorem ok_bind {α β : Type} (a : α) (f : α → Except String β) :
    (Except.ok a >>= f) = f a := rfl

/-- Mapping over a successful result applies the function. -/
theorem map_ok {α β : Type} (f : α → β) (a : α) :
    Except.map f (Except.ok a : Except String α) = Except.ok (f a) := rfl

/-- An association-list lookup misses every key that differs from all stored
keys. -/
theorem lookup_eq_none_of_ne {α : Type} (l : List (String × α)) (k : String)
    (h : ∀ p ∈ l, k ≠ p.1) : l.lookup k = none := by
  induction l with
  | nil => rfl
  | cons p rest ih =>
    have hk : (k == p.1) = false :=
      beq_eq_false_iff_ne.mpr (h p (List.mem_cons_self p rest))
    simp only [List.lookup, hk]
    exact ih (fun q hq => h q (List.mem_cons_of_mem p hq))

/-- C8 is false on the code: `translate_position` indexes the instrument-type
dict directly, so an unknown `secType` raises `KeyError` instead of yielding
an unrecognized/no-update result. -/
theorem C8_counterexample :
    translate_position
      { contract :=
          { symbol := "SPY"
            secType := "XXX"
            lastTradeDateOrContractMonth := ""
            right := ""
            strike := 0 }
        position := 1
        avgCost := 0 } = .error "KeyError: secType" := rfl

/-- C8 amended: the account-tag mapping is total (an unknown tag yields no
update rather than raising), but the instrument-type, side and status
mappings are consulted with raising dict indexing: `translate_position`
raises `KeyError` on an unknown `secType`, and `translate_trade` raises
`KeyError` on an unknown `secType`, on an unknown order action (for a known
`secType`), and on an unknown order status string once the earlier steps
pass (known `secType` and action, right either absent or known, order
reference either absent or well-formed with a known strategy code). -/
theorem C8_translation_amended :
    ((∀ tag : String, (∀ p ∈ account_translation, tag ≠ p.1) →
        translate_account_tag tag = none)
    ∧ (∀ item : IBPosition,
        sectype_translation.lookup item.contract.secType = none →
        translate_position item = .error "KeyError: secType")
    ∧ (∀ (item : IBTrade) (now : ℤ),
        sectype_translation.lookup item.contract.secType = none →
        translate_trade item now = .error "KeyError: secType")
    ∧ (∀ (item : IBTrade) (now : ℤ),
        (sectype_translation.lookup item.contract.secType).isSome →
        ownership_translation.lookup item.order.action = none →
        translate_trade item now = .error "KeyError: action")
    ∧ (∀ (item : IBTrade) (now : ℤ),
        (sectype_translation.lookup item.contract.secType).isSome →
        (ownership_translation.lookup item.order.action).isSome →
        (item.contract.right = ""
          ∨ (right_translation.lookup item.contract.right).isSome) →
        (item.order.orderRef = ""
          ∨ (item.order.orderRef ≠ ""
              ∧ ∃ a sid r, item.order.orderRef.splitOn "-" = [a, sid, r]
                ∧ ∃ w x y z, sid.splitOn "_" = [w, x, y, z]
                  ∧ (strategy_translation.lookup x).isSome)) →
        order_status_translation.lookup item.orderStatus.status = none →
        translate_trade item now = .error "KeyError: status")) := by
  refine ⟨?_, ?_, ?_, ?_, ?_⟩
  · intro tag h
    exact lookup_eq_none_of_ne account_translation tag h
  · intro item h
    simp [translate_position, dict_get, h, error_bind]
  · intro item now h
    simp [translate_trade, dict_get, h, error_bind]
  · intro item now h1 h2
    obtain ⟨ty, hty⟩ := Option.isSome_iff_exists.mp h1
    simp [translate_trade, dict_get, hty, h2, ok_bind, error_bind]
  · intro item now h1 h2 h3 h4 h5
    obtain ⟨ty, hty⟩ := Option.isSome_iff_exists.mp h1
    obtain ⟨ow, how⟩ := Option.isSome_iff_exists.mp h2
    have h3' : item.contract.right = ""
        ∨ ∃ rt, right_translation.lookup item.contract.right = some rt := by
      rcases h3 with h3 | h3
      · exact Or.inl h3
      · exact Or.inr (Option.isSome_iff_exists.mp h3)
    rcases h4 with h4 | ⟨hrefne, a, sid, r0, hsplit, w, x, y, z, hsid, hst⟩
    · rcases h3' with h3' | ⟨rt, hrt⟩
      · simp [translate_trade, dict_get, hty, how, h3', h4, h5,
          ok_bind, error_bind]
      · have hne : item.contract.right ≠ "" := by
          intro he
          rw [he, show List.lookup "" right_translation = none from rfl] at hrt
          exact Option.noConfusion hrt
        simp [translate_trade, dict_get, hty, how, hrt, hne, h4, h5,
          ok_bind, error_bind, map_ok]
    · obtain ⟨st, hstv⟩ := Option.isSome_iff_exists.mp hst
      rcases h3' with h3' | ⟨rt, hrt⟩
      · simp [translate_trade, dict_get, hty, how, h3', hrefne, hsplit, hsid,
          hstv, h5, ok_bind, error_bind, map_ok]
      · have hne : item.contract.right ≠ "" := by
          intro he
          rw [he, show List.lookup "" right_translation = none from rfl] at hrt
          exact Option.noConfusion hrt
        simp [translate_trade, dict_get, hty, how, hrt, hne, hrefne, hsplit,
          hsid, hstv, h5, ok_bind, error_bind, map_ok]

/-- Witness for the amended C8 theorem: the unknown tag `"Bogus"` yields no
account update; a trade event whose contract has known `secType` `"OPT"` but
order action `"HOLD"` raises the action `KeyError`; and one with known
`secType` and action but unknown status string `"Frozen"` raises the status
`KeyError`. -/
theorem C8_translation_amended_witness :
    translate_account_tag "Bogus" = none
    ∧ translate_trade
        { contract :=
            { symbol := "SPY"
              secType := "OPT"
              lastTradeDateOrContractMonth := ""
              right := ""
              strike := 0 }
          order := { action := "HOLD", orderRef := "", volatility := none }
          orderStatus := { status := "Filled", avgFillPrice := 0, filled := 0 } } 0
        = .error "KeyError: action"
    ∧ translate_trade
        { contract :=
            { symbol := "SPY"
              secType := "OPT"
              lastTradeDateOrContractMonth := ""
              right := ""
              strike := 0 }
          order := { action := "BUY", orderRef := "", volatility := none }
          orderStatus := { status := "Frozen", avgFillPrice := 0, filled := 0 } } 0
        = .error "KeyError: status" :=
  ⟨C8_translation_amended.1 "Bogus" (by decide),
   C8_translation_amended.2.2.2.1
     { contract :=
         { symbol := "SPY"
           secType := "OPT"
           lastTradeDateOrContractMonth := ""
           right := ""
           strike := 0 }
       order := { action := "HOLD", orderRef := "", volatility := none }
       orderStatus := { status := "Filled", avgFillPrice := 0, filled := 0 } } 0
     (by decide) (by decide),
   C8_translation_amended.2.2.2.2
     { contract :=
         { symbol := "SPY"
           secType := "OPT"
           lastTradeDateOrContractMonth := ""
           right := ""
           strike := 0 }
       order := { action := "BUY", orderRef := "", volatility := none }
       orderStatus := { status := "Frozen", avgFillPrice := 0, filled := 0 } } 0
     (by decide) (by decide) (Or.inl rfl) (Or.inl rfl) (by decide)⟩

/-- The contracts `IBDataAdapter.initialize_assets` builds for a watch list
(ib_adapter.py lines 359-367): Index and Stock assets produce a contract,
other asset types are skipped. -/
def contracts_for (assets : List Asset) : List Contract :=
  assets.filterMap (fun a =>
    if a.asset_type = AssetType.Index then
      some (mkIndex a.code CURRENCY.value)
    else if a.asset_type = AssetType.Stock then
      some (mkStock a.code "SMART" CURRENCY.value)
    else none)

/-- One insertion of the Python dict comprehension
`{c.symbol: c for c in q_contracts}`: a later contract with an already-seen
symbol overwrites the earlier entry. -/
def dict_insert (m : List (String × Contract)) (k : String) (v : Contract) :
    List (String × Contract) :=
  bif m.any (fun p => p.1 == k) then
    m.map (fun p => bif p.1 == k then (k, v) else p)
  else m ++ [(k, v)]

/-- The dict `{c.symbol: c for c in q_contracts}`. -/
def dict_of_symbols (q : List Contract) : List (String × Contract) :=
  q.foldl (fun m c => dict_insert m c.symbol c) []

/-- `IBDataAdapter.initialize_assets` (ib_adapter.py lines 358-373); the
broker's `qualifyContracts` call is passed in as a function. -/
def init_assets (qualifyContracts : List Contract → List Contract)
    (assets : List Asset) : Except String (List (String × Contract)) :=
  let q_contracts := qualifyContracts (contracts_for assets)
  if q_contracts.length = assets.length then .ok (dict_of_symbols q_contracts)
  else .error "Error: ambiguous contracts"

/-- Folding the dict insertions over contracts with fresh, pairwise-distinct
symbols appends one entry per contract. -/
theorem foldl_dict_insert (q : List Contract) (m : List (String × Contract))
    (hfresh : ∀ c ∈ q, ∀ p ∈ m, p.1 ≠ c.symbol)
    (hnd : (q.map Contract.symbol).Nodup) :
    q.foldl (fun m c => dict_insert m c.symbol c) m
      = m ++ q.map (fun c => (c.symbol, c)) := by
  induction q generalizing m with
  | nil => rw [List.foldl_nil, List.map_nil, List.append_nil]
  | cons c rest ih =>
    have hany : (m.any (fun p => p.1 == c.symbol)) = false := by
      rw [List.any_eq_false]
      intro p hp
      rw [Bool.not_eq_true]
      exact beq_eq_false_iff_ne.mpr (hfresh c (List.mem_cons_self c rest) p hp)
    have hstep : dict_insert m c.symbol c = m ++ [(c.symbol, c)] := by
      rw [dict_insert, hany]
      rfl
    have hnd' : (rest.map Contract.symbol).Nodup := (List.nodup_cons.mp hnd).2
    have hnotmem : c.symbol ∉ rest.map Contract.symbol := (List.nodup_cons.mp hnd).1
    have hfresh' : ∀ c' ∈ rest, ∀ p ∈ m ++ [(c.symbol, c)], p.1 ≠ c'.symbol := by
      intro c' hc' p hp
      rcases List.mem_append.mp hp with hp | hp
      · exact hfresh c' (List.mem_cons_of_mem c hc') p hp
      · have : p = (c.symbol, c) := List.mem_singleton.mp hp
        subst this
        intro hEq
        refine hnotmem ?_
        rw [show c.symbol = c'.symbol from hEq]
        exact List.mem_map_of_mem Contract.symbol hc'
    calc (c :: rest).foldl (fun m c => dict_insert m c.symbol c) m
        = rest.foldl (fun m c => dict_insert m c.symbol c) (m ++ [(c.symbol, c)]) := by
          rw [List.foldl_cons, hstep]
      _ = (m ++ [(c.symbol, c)]) ++ rest.map (fun c => (c.symbol, c)) :=
          ih (m ++ [(c.symbol, c)]) hfresh' hnd'
      _ = m ++ (c :: rest).map (fun c => (c.symbol, c)) := by
          simp

/-- C6: contract qualification is fatal on ambiguity.  If the broker returns
fewer qualified contracts than assets were requested, initialization yields
the `ValueError` and no partial mapping; if the counts match, it returns the
symbol-keyed mapping of the qualified contracts — one entry per contract
when their symbols are pairwise distinct. -/
theorem C6_initialization (qualifyContracts : List Contract → List Contract)
    (assets : List Asset) :
    (((qualifyContracts (contracts_for assets)).length < assets.length →
        init_assets qualifyContracts assets = .error "Error: ambiguous contracts")
    ∧ ((qualifyContracts (contracts_for assets)).length = assets.length →
        init_assets qualifyContracts assets
          = .ok (dict_of_symbols (qualifyContracts (contracts_for assets)))
        ∧ (((qualifyContracts (contracts_for assets)).map Contract.symbol).Nodup →
            dict_of_symbols (qualifyContracts (contracts_for assets))
              = (qualifyContracts (contracts_for assets)).map
                  (fun c => (c.symbol, c))))) := by
  constructor
  · intro h
    rw [init_assets, if_neg (Nat.ne_of_lt h)]
  · intro h
    refine ⟨by rw [init_assets, if_pos h], ?_⟩
    intro hnd
    rw [dict_of_symbols,
      foldl_dict_insert _ [] (by intro c _ p hp; cases hp) hnd]
    rfl

/-- A stock asset for the SPY symbol. -/
def assetSPY : Asset := Asset.make "SPY" AssetType.Stock DataSource.IB Currency.USD

/-- Witness for the C6 theorem: a broker qualifying nothing aborts the
initialization of `[assetSPY]` with the error, and a broker qualifying
everything yields the symbol-keyed mapping. -/
theorem C6_initialization_witness :
    init_assets (fun _ => []) [assetSPY] = .error "Error: ambiguous contracts"
    ∧ init_assets (fun l => l) [assetSPY]
        = .ok (dict_of_symbols (contracts_for [assetSPY])) :=
  ⟨(C6_initialization (fun _ => []) [assetSPY]).1 (by decide),
   ((C6_initialization (fun l => l) [assetSPY]).2 rfl).1⟩

/-- The broker string of an order role (`OrderRol(...).value`). -/
def OrderRol.value : OrderRol → String
  | .NewLeg => "NL"
  | .TakeProfit => "TP"
  | .StopLoss => "SL"

/-- `created.strftime('%d-%m-%Y %H:%M:%S')`: the timestamp rendered as text
(the exact calendar format of the epoch-seconds stamp is immaterial to every
claim). -/
def fmt_datetime (t : ℤ) : String := toString t

/-- `data_objects.OrderData` (data_objects.py lines 319-348). -/
structure OrderData where
  asset : Asset
  rol : OrderRol
  ownership : OwnershipType
  quantity : ℕ
  price : ℚ
  order_type : OrderType
  expiration : Date
  strike : ℚ
  right : RightType
  created : ℤ
  updated : ℤ
  status : OrderStatus
  order_id : String
  contract : Option Contract

/-- `OrderData.__init__` (data_objects.py lines 320-348): records the order
fields, stamps `created`/`updated` with the construction time, starts the
status at `APIPending` and derives the order id from the reference, the role
and the creation time. -/
def OrderData.make (asset : Asset) (rol : OrderRol) (ownership : OwnershipType)
    (quantity : ℕ) (price : ℚ) (order_type : OrderType) (expiration : Date)
    (strike : ℚ) (right : RightType) (reference : String)
    (contract : Option Contract) (now : ℤ) : OrderData :=
  { asset := asset, rol := rol, ownership := ownership, quantity := quantity,
    price := price, order_type := order_type, expiration := expiration,
    strike := strike, right := right, created := now, updated := now,
    status := OrderStatus.APIPending,
    order_id := reference ++ "_" ++ rol.value ++ " " ++ fmt_datetime now,
    contract := contract }

/-- The terminal states of the §4.2 state machine: `Filled`, `Cancelled`,
`Inactive`. -/
def OrderStatus.is_terminal : OrderStatus → Bool
  | .Filled => true
  | .Cancelled => true
  | .Inactive => true
  | _ => false

/-- The §4.2 order-status state machine as forward reachability (reflexive):
pending-submission → submitted-to-venue → pre-submitted/submitted →
filled/cancelled/inactive; `PendingCancel` is an intermediate on the way to
`Cancelled` and `APICancelled` is reachable from every pre-terminal state; no
transition leaves a terminal state. -/
def OrderStatus.advances : OrderStatus → OrderStatus → Bool
  | .APIPending, _ => true
  | .PendingSubmit, t => !(t == .APIPending)
  | .PreSubmitted, t =>
    t == .PreSubmitted || t == .Filled || t == .Cancelled || t == .Inactive
      || t == .APICancelled || t == .PendingCancel
  | .Submitted, t =>
    t == .Submitted || t == .Filled || t == .Cancelled || t == .Inactive
      || t == .APICancelled || t == .PendingCancel
  | .PendingCancel, t =>
    t == .PendingCancel || t == .Cancelled || t == .APICancelled
  | .APICancelled, t => t == .APICancelled || t == .Cancelled
  | .Filled, t => t == .Filled
  | .Cancelled, t => t == .Cancelled
  | .Inactive, t => t == .Inactive

/-- The state machine is reflexive: staying put is always legal. -/
theorem advances_refl (s : OrderStatus) : s.advances s = true := by
  cases s <;> rfl

/-- `Optopus._order_status` (optopus.py lines 68-69): the order-status event
handler wired to `emit_order_status` — which
`IBBrokerAdapter._onOrderStatusEvent` invokes with no payload — has the body
`pass`.  No ledger order is touched. -/
def order_status_handler (orders : List OrderData) (_item : IBTrade) :
    List OrderData := orders

/-- C5: order statuses in the ledger only move forward through the §4.2 state
machine, and no order leaves a terminal state.  Every order-status event is
discarded by the handler (its body is `pass`), so each order's status after
an event equals its status before — which is in particular a legal (reflexive)
forward move that preserves terminality — and every order starts at
`APIPending`, the machine's initial state. -/
theorem C5_forward_only_status (orders : List OrderData) (item : IBTrade)
    (asset : Asset) (rol : OrderRol) (ownership : OwnershipType)
    (quantity : ℕ) (price : ℚ) (order_type : OrderType) (expiration : Date)
    (strike : ℚ) (right : RightType) (reference : String)
    (contract : Option Contract) (now : ℤ) :
    (order_status_handler orders item = orders
    ∧ List.Forall₂
        (fun o o' => o'.status = o.status
          ∧ OrderStatus.advances o.status o'.status = true
          ∧ o'.status.is_terminal = o.status.is_terminal)
        orders (order_status_handler orders item)
    ∧ (OrderData.make asset rol ownership quantity price order_type expiration
        strike right reference contract now).status = OrderStatus.APIPending) := by
  refine ⟨rfl, ?_, rfl⟩
  rw [order_status_handler]
  exact List.forall₂_same.mpr
    (fun o _ => ⟨rfl, advances_refl o.status, rfl⟩)

end Optopus
